import Mathlib

/-!
Shallow embedding of the deployment workflow engine of the `block` backend
(`src/backend/app/services/workflow_service.py` and
`src/backend/app/services/deployment_service.py`), together with the request
schema `ChaincodeDeploy` from `src/backend/app/schemas/chaincode.py`.

Modelling conventions:
* Remote gateway behaviour is an oracle `Nat → GwOutcome` giving, per 1-based
  attempt number, either an HTTP response, a transport-level exception
  (`httpx.TimeoutException` / `httpx.ConnectError`), or another exception.
* The database is explicit state (`DeploymentRec`, `Option Chaincode`,
  `List DeploymentRec`); timestamps are `Nat` values passed in explicitly.
* Python `str.lower` is modelled on ASCII letters (`pyLower`), and Python's
  `in` test on strings by `strContains`.
* `execute_deployment_workflow` additionally records the list of attempted
  steps with their results (`WfResult.steps`); this is a pure observation of
  the control flow of the Python function, which calls the four step helpers
  in sequence with early returns.
-/

namespace Block

/-- Render an optional string the way a Python f-string renders it
(`None` for a missing value). -/
def optStr : Option String → String
  | none => "None"
  | some s => s

/-- ASCII lower-casing of one character, modelling `str.lower` on the
ASCII fragment relevant to the gateway error messages. -/
def lowerChar (c : Char) : Char :=
  if 65 ≤ c.toNat ∧ c.toNat ≤ 90 then Char.ofNat (c.toNat + 32) else c

/-- ASCII model of Python `str.lower`. -/
def pyLower (s : String) : String := ⟨s.data.map lowerChar⟩

/-- Whether `pat` is a prefix of the character list `l`. -/
def chListHasPrefix : List Char → List Char → Bool
  | [], _ => true
  | _ :: _, [] => false
  | a :: as, b :: bs => a == b && chListHasPrefix as bs

/-- Whether `pat` occurs as a contiguous sublist of the second argument. -/
def chListContains (pat : List Char) : List Char → Bool
  | [] => chListHasPrefix pat []
  | b :: bs => chListHasPrefix pat (b :: bs) || chListContains pat bs

/-- Python's `pat in s` substring test. -/
def strContains (s pat : String) : Bool := chListContains pat.data s.data

/-- Python truthiness of an optional string (`if error_message:`):
true exactly for a present, non-empty string. -/
def pyTruthyStr : Option String → Bool
  | none => false
  | some s => !(s == "")

/-- The `data` payload of a 200 gateway response, restricted to the keys the
workflow reads (`result.get("data").get("packageId" / "packagePath")`). -/
structure GwData where
  packageId : Option String := none
  packagePath : Option String := none
deriving Repr, DecidableEq

/-- Outcome of one `client.post` to the gateway: an HTTP response with status
and body text, a transport-level exception (`httpx.TimeoutException` or
`httpx.ConnectError`), or any other exception. -/
inductive GwOutcome where
  | http (status : Nat) (body : String) (data : GwData)
  | netExc (msg : String)
  | exc (msg : String)
deriving Repr, DecidableEq

/-- The dictionary returned by `_call_gateway_with_retry`:
`{"success": True, "data": ..., "attempt": ...}` or
`{"success": False, "error": ...}`. -/
inductive RetryResult where
  | ok (data : GwData) (attempt : Nat)
  | err (error : String)
deriving Repr, DecidableEq

/-- Result of the retried gateway call, instrumented with the number of
attempts actually posted and the list of backoff sleeps (in seconds). -/
structure RetryOutcome where
  result : RetryResult
  attempts : Nat
  sleeps : List Nat
deriving Repr, DecidableEq

/-- The `for attempt in range(1, max_retries + 1)` loop body of
`_call_gateway_with_retry` (workflow_service.py lines 34-72), over the list
of remaining attempt numbers.  `made` counts posts already issued and
`sleeps` accumulates the backoff waits performed so far. -/
def callLoop (maxRetries : Nat) (stepName : String) (oracle : Nat → GwOutcome) :
    List Nat → Option String → Nat → List Nat → RetryOutcome
  | [], lastError, made, sleeps =>
      { result := .err (optStr lastError ++ " (failed after " ++ toString maxRetries ++ " attempts)"),
        attempts := made, sleeps := sleeps }
  | attempt :: rest, _, made, sleeps =>
      match oracle attempt with
      | .http status body data =>
          if status = 200 then
            { result := .ok data attempt, attempts := made + 1, sleeps := sleeps }
          else
            let lastError := stepName ++ " failed: " ++ body
            if 400 ≤ status ∧ status < 500 then
              { result := .err lastError, attempts := made + 1, sleeps := sleeps }
            else
              callLoop maxRetries stepName oracle rest (some lastError) (made + 1) sleeps
      | .netExc msg =>
          let lastError := stepName ++ " timeout/connection error (attempt " ++ toString attempt ++
            "/" ++ toString maxRetries ++ "): " ++ msg
          if attempt < maxRetries then
            callLoop maxRetries stepName oracle rest (some lastError) (made + 1)
              (sleeps ++ [2 ^ attempt])
          else
            callLoop maxRetries stepName oracle rest (some lastError) (made + 1) sleeps
      | .exc msg =>
          { result := .err (stepName ++ " unexpected error: " ++ msg ++
              " (failed after " ++ toString maxRetries ++ " attempts)"),
            attempts := made + 1, sleeps := sleeps }

/-- `WorkflowService._call_gateway_with_retry`: attempts `1..max_retries`
against the oracle, returning on 200 (success) or 4xx (no retry); retrying
with a `2 ^ attempt` seconds backoff sleep after a transport-level exception
when further attempts remain; breaking out of the loop on any other
exception; and on loop exhaustion failing with
`"<last_error> (failed after <max_retries> attempts)"`. -/
def _call_gateway_with_retry (maxRetries : Nat) (stepName : String)
    (oracle : Nat → GwOutcome) : RetryOutcome :=
  callLoop maxRetries stepName oracle (List.range' 1 maxRetries) none 0 []

/-- The chaincode row fields the deployment slice reads and writes. -/
structure Chaincode where
  name : String
  version : String
  status : String
deriving Repr, DecidableEq

/-- The deployment row fields the deployment slice reads and writes.
`deployment_metadata` is modelled by its only consumed key, `sequence`
(`metaSequence = none` models a row with no metadata). -/
structure DeploymentRec where
  chaincode_id : Nat
  channel_name : String
  target_peers : List String
  deployment_status : String := "pending"
  error_message : Option String := none
  deployment_logs : Option String := none
  deployment_date : Option Nat := none
  completion_date : Option Nat := none
  metaSequence : Option Int := none
deriving Repr, DecidableEq

/-- The inter-step `context` dictionary, restricted to the keys the steps
write and read (`packageId`, `packagePath`, `peerEndpoint`); `none` models
a key that is absent or bound to `None`. -/
structure Ctx where
  packageId : Option String := none
  packagePath : Option String := none
  peerEndpoint : Option String := none
deriving Repr, DecidableEq

/-- The dictionary a step helper returns: `success`, plus `error` on failure
and the context keys the step contributes on success. -/
structure StepRes where
  success : Bool
  error : Option String := none
  packageId : Option String := none
  packagePath : Option String := none
  peerEndpoint : Option String := none
  alreadyInstalled : Bool := false
deriving Repr, DecidableEq

/-- One gateway oracle per remote route used by the four steps. -/
structure GatewayEnv where
  packageOracle : Nat → GwOutcome
  installOracle : Nat → GwOutcome
  approveOracle : Nat → GwOutcome
  commitOracle : Nat → GwOutcome

/-- `WorkflowService._package_chaincode`: posts to `/api/chaincode/package`
and on success contributes `packageId` and `packagePath` to the context. -/
def _package_chaincode (maxRetries : Nat) (chaincode : Chaincode)
    (env : GatewayEnv) : StepRes :=
  match (_call_gateway_with_retry maxRetries "Package" env.packageOracle).result with
  | .ok data _ =>
      { success := true, packageId := data.packageId, packagePath := data.packagePath }
  | .err e => { success := false, error := some e }

/-- `WorkflowService._install_chaincode`: posts to `/api/chaincode/install`
with the first target peer; a failure whose lower-cased error text contains
`"already successfully installed"` or `"already installed"` is reclassified
as success. -/
def _install_chaincode (maxRetries : Nat) (chaincode : Chaincode)
    (deployment : DeploymentRec) (context : Ctx) (env : GatewayEnv) : StepRes :=
  let peerEndpoint := deployment.target_peers.head?
  match (_call_gateway_with_retry maxRetries "Install" env.installOracle).result with
  | .ok data _ =>
      { success := true, packageId := data.packageId, peerEndpoint := peerEndpoint }
  | .err e =>
      let errorMessage := pyLower e
      if strContains errorMessage "already successfully installed" ||
          strContains errorMessage "already installed" then
        { success := true, packageId := context.packageId,
          peerEndpoint := peerEndpoint, alreadyInstalled := true }
      else
        { success := false, error := some e }

/-- `WorkflowService._approve_chaincode`: posts to `/api/chaincode/approve`
and passes the retried call's result dictionary through unchanged. -/
def _approve_chaincode (maxRetries : Nat) (chaincode : Chaincode)
    (deployment : DeploymentRec) (context : Ctx) (env : GatewayEnv) : StepRes :=
  match (_call_gateway_with_retry maxRetries "Approve" env.approveOracle).result with
  | .ok _ _ => { success := true }
  | .err e => { success := false, error := some e }

/-- `WorkflowService._commit_chaincode`: posts to `/api/chaincode/commit`
and passes the retried call's result dictionary through unchanged. -/
def _commit_chaincode (maxRetries : Nat) (chaincode : Chaincode)
    (deployment : DeploymentRec) (context : Ctx) (env : GatewayEnv) : StepRes :=
  match (_call_gateway_with_retry maxRetries "Commit" env.commitOracle).result with
  | .ok _ _ => { success := true }
  | .err e => { success := false, error := some e }

/-- Names of the four workflow steps, in their source order. -/
inductive StepName where
  | package
  | install
  | approve
  | commit
deriving Repr, DecidableEq

/-- Result of `execute_deployment_workflow`, instrumented with the list of
steps that were attempted, in order, paired with each step's result. -/
structure WfResult where
  success : Bool
  error : Option String := none
  steps : List (StepName × StepRes) := []
deriving Repr, DecidableEq

/-- `WorkflowService.execute_deployment_workflow` (workflow_service.py lines
74-120): looks up the chaincode, then runs package, install, approve and
commit in order, merging each successful step's contributed keys into the
context and returning
`"Deployment failed at step '<name>': <error>"` at the first failing step.
(The `AUTO_JOIN_CHANNEL` branch is guarded by `and False` in the source and
is dead code.) -/
def execute_deployment_workflow (maxRetries : Nat) (chaincode? : Option Chaincode)
    (deployment : DeploymentRec) (env : GatewayEnv) : WfResult :=
  match chaincode? with
  | none => { success := false, error := some "Chaincode not found" }
  | some chaincode =>
      let packageResult := _package_chaincode maxRetries chaincode env
      if packageResult.success = false then
        { success := false,
          error := some ("Deployment failed at step 'package': " ++ optStr packageResult.error),
          steps := [(.package, packageResult)] }
      else
        let ctx1 : Ctx :=
          { packageId := packageResult.packageId, packagePath := packageResult.packagePath }
        let installResult := _install_chaincode maxRetries chaincode deployment ctx1 env
        if installResult.success = false then
          { success := false,
            error := some ("Deployment failed at step 'install': " ++ optStr installResult.error),
            steps := [(.package, packageResult), (.install, installResult)] }
        else
          let ctx2 : Ctx :=
            { ctx1 with packageId := installResult.packageId,
                        peerEndpoint := installResult.peerEndpoint }
          let approveResult := _approve_chaincode maxRetries chaincode deployment ctx2 env
          if approveResult.success = false then
            { success := false,
              error := some ("Deployment failed at step 'approve': " ++ optStr approveResult.error),
              steps := [(.package, packageResult), (.install, installResult),
                        (.approve, approveResult)] }
          else
            let commitResult := _commit_chaincode maxRetries chaincode deployment ctx2 env
            if commitResult.success = false then
              { success := false,
                error := some ("Deployment failed at step 'commit': " ++ optStr commitResult.error),
                steps := [(.package, packageResult), (.install, installResult),
                          (.approve, approveResult), (.commit, commitResult)] }
            else
              { success := true,
                steps := [(.package, packageResult), (.install, installResult),
                          (.approve, approveResult), (.commit, commitResult)] }

/-- `DeploymentService.update_deployment_status` (deployment_service.py lines
93-133) on a found record: sets the status; stamps `deployment_date` on first
entry to `deploying`; on `success`/`failed`/`rolled_back` stamps
`completion_date` with the current time and clears `error_message` on
`success`; then overwrites `error_message` / `deployment_logs` when the
corresponding argument is truthy. -/
def update_deployment_status (deployment : DeploymentRec) (status : String)
    (errorMessage : Option String) (deploymentLogs : Option String) (now : Nat) :
    DeploymentRec :=
  let d1 := { deployment with deployment_status := status }
  let d2 :=
    if status = "deploying" ∧ d1.deployment_date = none then
      { d1 with deployment_date := some now }
    else d1
  let d3 :=
    if status = "success" ∨ status = "failed" ∨ status = "rolled_back" then
      { d2 with completion_date := some now,
                error_message := if status = "success" then none else d2.error_message }
    else d2
  let d4 := if pyTruthyStr errorMessage then { d3 with error_message := errorMessage } else d3
  let d5 := if pyTruthyStr deploymentLogs then { d4 with deployment_logs := deploymentLogs } else d4
  d5

/-- The slice of database state `execute_deployment` touches: the deployment
record being executed and the chaincode row it references (if present). -/
structure SysState where
  dep : DeploymentRec
  cc : Option Chaincode
deriving Repr, DecidableEq

/-- The dictionary `execute_deployment` returns to its caller. -/
structure ExecResult where
  success : Bool
  error : Option String := none
deriving Repr, DecidableEq

/-- `DeploymentService.execute_deployment` (deployment_service.py lines
135-208) for an existing record: transitions the record to `deploying` at
`tStart`, runs the workflow, and at `tEnd` either flips the chaincode to
`active` and marks the record `success`, or marks it `failed` with the
workflow's error message.  The WebSocket emit swallows all exceptions
internally (websocket_service.py) and cannot divert this control flow. -/
def execute_deployment (maxRetries : Nat) (st : SysState) (env : GatewayEnv)
    (tStart tEnd : Nat) : SysState × ExecResult :=
  let st1 : SysState :=
    { st with dep := update_deployment_status st.dep "deploying" none none tStart }
  let result := execute_deployment_workflow maxRetries st1.cc st1.dep env
  if result.success then
    let st2 : SysState := { st1 with cc := st1.cc.map (fun c => { c with status := "active" }) }
    let st3 : SysState :=
      { st2 with dep := update_deployment_status st2.dep "success" none none tEnd }
    (st3, { success := true })
  else
    let err := (result.error).getD "Unknown error"
    let st2 : SysState :=
      { st1 with dep := update_deployment_status st1.dep "failed" (some err) none tEnd }
    (st2, { success := false, error := some err })

/-- `DeploymentService.create_deployment` (deployment_service.py lines
23-71): raises `ValueError` when the chaincode is missing or not `approved`;
otherwise persists a new `pending` record carrying the sequence in its
metadata.  The store is the list of persisted deployment records. -/
def create_deployment (store : List DeploymentRec) (chaincode? : Option Chaincode)
    (chaincode_id : Nat) (channel_name : String) (target_peers : List String)
    (sequence : Int) : List DeploymentRec × Except String DeploymentRec :=
  match chaincode? with
  | none => (store, .error "Chaincode not found")
  | some chaincode =>
      if chaincode.status ≠ "approved" then
        (store, .error "Chaincode must be approved before deployment")
      else
        let db_deployment : DeploymentRec :=
          { chaincode_id := chaincode_id, channel_name := channel_name,
            target_peers := target_peers, deployment_status := "pending",
            metaSequence := some sequence }
        (store ++ [db_deployment], .ok db_deployment)

/-- The `target_peers` validator of the `ChaincodeDeploy` request schema
(schemas/chaincode.py lines 34-43): rejects an empty peer list before the
route handler runs. -/
def validate_target_peers (target_peers : List String) : Except String (List String) :=
  if target_peers = [] then .error "Target peers cannot be empty" else .ok target_peers

/-- The `POST /deploy` creation path as the caller sees it: FastAPI validates
the `ChaincodeDeploy` body (non-empty `target_peers`), then
`create_deployment` runs its own precondition checks; a record is persisted
only when every check passes. -/
def deploy_chaincode_route (store : List DeploymentRec) (chaincode? : Option Chaincode)
    (chaincode_id : Nat) (channel_name : String) (target_peers : List String)
    (sequence : Int) : List DeploymentRec × Except String DeploymentRec :=
  match validate_target_peers target_peers with
  | .error e => (store, .error e)
  | .ok peers => create_deployment store chaincode? chaincode_id channel_name peers sequence

/-- What a single invoke/query returns to the caller: a raised `ValueError`,
or the handler's result dictionary `{success, error?}`. -/
inductive CallResult where
  | raised (msg : String)
  | returned (success : Bool) (error : Option String)
deriving Repr, DecidableEq

/-- An invoke/query outcome instrumented with whether the gateway was
actually posted to. -/
structure CallOutcome where
  gatewayCalled : Bool
  result : CallResult
deriving Repr, DecidableEq

/-- `DeploymentService.invoke_chaincode` (deployment_service.py lines
210-259): raises when the chaincode is missing or its status is not
`active`; otherwise performs a single un-retried gateway post. -/
def invoke_chaincode (chaincode? : Option Chaincode) (resp : GwOutcome) : CallOutcome :=
  match chaincode? with
  | none => { gatewayCalled := false, result := .raised "Chaincode not found" }
  | some chaincode =>
      if chaincode.status ≠ "active" then
        { gatewayCalled := false, result := .raised "Chaincode must be active to invoke" }
      else
        match resp with
        | .http status body _ =>
            if status = 200 then { gatewayCalled := true, result := .returned true none }
            else
              { gatewayCalled := true,
                result := .returned false (some ("Gateway error: " ++ body)) }
        | .netExc msg => { gatewayCalled := true, result := .returned false (some msg) }
        | .exc msg => { gatewayCalled := true, result := .returned false (some msg) }

/-- `DeploymentService.query_chaincode` (deployment_service.py lines
261-306): raises only when the chaincode is missing; it performs the single
gateway post without checking the chaincode's status. -/
def query_chaincode (chaincode? : Option Chaincode) (resp : GwOutcome) : CallOutcome :=
  match chaincode? with
  | none => { gatewayCalled := false, result := .raised "Chaincode not found" }
  | some _ =>
      match resp with
      | .http status body _ =>
          if status = 200 then { gatewayCalled := true, result := .returned true none }
          else
            { gatewayCalled := true,
              result := .returned false (some ("Gateway error: " ++ body)) }
      | .netExc msg => { gatewayCalled := true, result := .returned false (some msg) }
      | .exc msg => { gatewayCalled := true, result := .returned false (some msg) }

/-- An approved chaincode used as concrete input in witnesses. -/
def ccEx : Chaincode := { name := "asset", version := "1.0", status := "approved" }

/-- A pending deployment record used as concrete input in witnesses. -/
def depEx : DeploymentRec :=
  { chaincode_id := 1, channel_name := "ch1",
    target_peers := ["peer0:7051", "peer1:7051"], metaSequence := some 1 }

/-- A 200 gateway response carrying package data. -/
def gwOk : GwOutcome :=
  .http 200 "ok" { packageId := some "pkg1", packagePath := some "/tmp/p.tar.gz" }

/-- A gateway environment in which every route succeeds on the first try. -/
def envAllOk : GatewayEnv :=
  { packageOracle := fun _ => gwOk, installOracle := fun _ => gwOk,
    approveOracle := fun _ => gwOk, commitOracle := fun _ => gwOk }

/-- A gateway environment in which every post raises a transport-level
timeout exception. -/
def envAllTimeout : GatewayEnv :=
  { packageOracle := fun _ => .netExc "timed out",
    installOracle := fun _ => .netExc "timed out",
    approveOracle := fun _ => .netExc "timed out",
    commitOracle := fun _ => .netExc "timed out" }

/-- A gateway environment in which the install route always raises a timeout
exception whose text contains "already installed". -/
def envInstallTimeoutAI : GatewayEnv :=
  { envAllOk with installOracle := fun _ => .netExc "already installed" }

/-- A gateway environment in which the install route answers HTTP 400 with a
body containing "already installed". -/
def envInstall400AI : GatewayEnv :=
  { envAllOk with installOracle := fun _ => .http 400 "already installed" {} }

/-- A gateway environment in which the approve route answers HTTP 400
"invalid sequence". -/
def envApprove400 : GatewayEnv :=
  { envAllOk with approveOracle := fun _ => .http 400 "invalid sequence" {} }

/-- A chaincode that was uploaded but never approved (scenario D input). -/
def ccUploaded : Chaincode := { name := "asset", version := "1.0", status := "uploaded" }

/-- C2 counterexample: the install step whose gateway call raises a timeout
exception with text "already installed" on every attempt is attempted
exactly 3 times, yet the step result is success (the already-installed
reclassification fires on the exhausted-retry error string), so the step
does not fail as the claim requires. -/
theorem c2_counterexample :
    (_call_gateway_with_retry 3 "Install"
      (fun _ => .netExc "already installed")).attempts = 3 ∧
    (_install_chaincode 3 ccEx depEx {} envInstallTimeoutAI).success = true := by
  exact ⟨by decide, by decide⟩

/-- C2 (amended): a gateway call that raises a transient network error on
every attempt is attempted exactly `max_retries` (default 3) times and its
result is an error containing "failed after 3 attempts"; the package,
approve and commit steps then fail, and the install step also fails unless
the lower-cased error text contains one of the already-installed markers. -/
theorem c2_retry_bound_amended (step : String) (msgs : Nat → String) (cc : Chaincode)
    (dep : DeploymentRec) (ctx : Ctx) (env : GatewayEnv) (e : String) :
    ((_call_gateway_with_retry 3 step (fun i => .netExc (msgs i))).attempts = 3 ∧
     ∃ pre suf, (_call_gateway_with_retry 3 step (fun i => .netExc (msgs i))).result =
       .err (pre ++ "failed after 3 attempts" ++ suf)) ∧
    ((_call_gateway_with_retry 3 "Package" env.packageOracle).result = .err e →
      (_package_chaincode 3 cc env).success = false ∧
      (_package_chaincode 3 cc env).error = some e) ∧
    ((_call_gateway_with_retry 3 "Approve" env.approveOracle).result = .err e →
      (_approve_chaincode 3 cc dep ctx env).success = false ∧
      (_approve_chaincode 3 cc dep ctx env).error = some e) ∧
    ((_call_gateway_with_retry 3 "Commit" env.commitOracle).result = .err e →
      (_commit_chaincode 3 cc dep ctx env).success = false ∧
      (_commit_chaincode 3 cc dep ctx env).error = some e) ∧
    ((_call_gateway_with_retry 3 "Install" env.installOracle).result = .err e →
      strContains (pyLower e) "already successfully installed" = false →
      strContains (pyLower e) "already installed" = false →
      (_install_chaincode 3 cc dep ctx env).success = false ∧
      (_install_chaincode 3 cc dep ctx env).error = some e) := by
  refine ⟨⟨?_, ?_⟩, ?_, ?_, ?_, ?_⟩
  · simp [_call_gateway_with_retry, callLoop, List.range']
  · refine ⟨step ++ " timeout/connection error (attempt " ++ toString (3:Nat) ++ "/" ++
      toString (3:Nat) ++ "): " ++ msgs 3 ++ " (", ")", ?_⟩
    simp [_call_gateway_with_retry, List.range', callLoop, optStr, String.append_assoc]
    rfl
  · intro h
    simp [_package_chaincode, h]
  · intro h
    simp [_approve_chaincode, h]
  · intro h
    simp [_commit_chaincode, h]
  · intro h h1 h2
    simp [_install_chaincode, h, h1, h2]

/-- C2 witness: the amended theorem applied to the approve step against a
gateway that always times out. -/
theorem c2_retry_bound_amended_witness :
    (_call_gateway_with_retry 3 "Approve" (fun _ => .netExc "timed out")).attempts = 3 ∧
    (_approve_chaincode 3 ccEx depEx {} envAllTimeout).success = false := by
  have h := c2_retry_bound_amended "Approve" (fun _ => "timed out") ccEx depEx {}
    envAllTimeout
    ("Approve timeout/connection error (attempt 3/3): timed out (failed after 3 attempts)")
  exact ⟨h.1.1, (h.2.2.1 (by decide)).1⟩

/-- C10: a gateway call answered with a non-200, non-4xx status on every
attempt is retried for the full `max_retries` (default 3) attempts with no
backoff sleeps, and then fails with the last error suffixed
"(failed after 3 attempts)". -/
theorem c10_5xx_retry_no_backoff (step : String) (statuses : Nat → Nat)
    (bodies : Nat → String) (payloads : Nat → GwData)
    (h200 : ∀ i, statuses i ≠ 200)
    (h4xx : ∀ i, ¬(400 ≤ statuses i ∧ statuses i < 500)) :
    (_call_gateway_with_retry 3 step
      (fun i => .http (statuses i) (bodies i) (payloads i))).attempts = 3 ∧
    (_call_gateway_with_retry 3 step
      (fun i => .http (statuses i) (bodies i) (payloads i))).sleeps = [] ∧
    (_call_gateway_with_retry 3 step
      (fun i => .http (statuses i) (bodies i) (payloads i))).result =
      .err (step ++ " failed: " ++ bodies 3 ++ " (failed after " ++ toString (3:Nat) ++
        " attempts)") ∧
    ∃ a, (_call_gateway_with_retry 3 step
      (fun i => .http (statuses i) (bodies i) (payloads i))).result =
      .err (a ++ "(failed after 3 attempts)") := by
  have hmain : (_call_gateway_with_retry 3 step
      (fun i => .http (statuses i) (bodies i) (payloads i))) =
      { result := .err (step ++ " failed: " ++ bodies 3 ++ " (failed after " ++
          toString (3:Nat) ++ " attempts)"),
        attempts := 3, sleeps := [] } := by
    simp only [_call_gateway_with_retry, List.range', callLoop]
    rw [if_neg (h200 1), if_neg (h4xx 1), if_neg (h200 2), if_neg (h4xx 2),
      if_neg (h200 3), if_neg (h4xx 3)]
    rfl
  refine ⟨by rw [hmain], by rw [hmain], by rw [hmain],
    step ++ " failed: " ++ bodies 3 ++ " ", ?_⟩
  rw [hmain]
  simp only [String.append_assoc]
  rfl

/-- C10 witness: a gateway answering HTTP 500 "boom" at every attempt. -/
theorem c10_5xx_retry_no_backoff_witness :
    (_call_gateway_with_retry 3 "Package" (fun _ => .http 500 "boom" {})).attempts = 3 ∧
    (_call_gateway_with_retry 3 "Package" (fun _ => .http 500 "boom" {})).sleeps = [] := by
  have h := c10_5xx_retry_no_backoff "Package" (fun _ => 500) (fun _ => "boom")
    (fun _ => ({} : GwData))
    (fun i => by show (500:Nat) ≠ 200; decide)
    (fun i => by show ¬(400 ≤ (500:Nat) ∧ (500:Nat) < 500); decide)
  exact ⟨h.1, h.2.1⟩

/-- C4 counterexample: with the default 3 attempts and a transport failure
at every attempt, the backoff sleeps are exactly 2s and 4s; no 8-second
(2^3) wait ever occurs, contradicting the claimed 2s, 4s and 8s waits for
attempts 1 through 3. -/
theorem c4_counterexample :
    (_call_gateway_with_retry 3 "Install" (fun _ => .netExc "timed out")).sleeps = [2, 4] ∧
    (2 ^ 3 : Nat) ∉ (_call_gateway_with_retry 3 "Install"
      (fun _ => .netExc "timed out")).sleeps := by
  exact ⟨by decide, by decide⟩

/-- C4 (amended): after a transiently failing attempt `i` the engine waits
`2 ^ i` seconds only when a further attempt remains (`i < max_retries`):
with the default 3 attempts the waits are 2s after attempt 1 and 4s after
attempt 2, and no wait follows the final attempt; a call that times out
twice and succeeds on the third attempt sleeps 2s then 4s and reports
success at attempt 3 (end-to-end scenario C). -/
theorem c4_backoff_amended (step : String) (msgs : Nat → String) (d : GwData) :
    (_call_gateway_with_retry 3 step (fun i => .netExc (msgs i))).sleeps = [2, 4] ∧
    (_call_gateway_with_retry 3 step
      (fun i => if i < 3 then .netExc (msgs i) else .http 200 "" d)).sleeps = [2, 4] ∧
    (_call_gateway_with_retry 3 step
      (fun i => if i < 3 then .netExc (msgs i) else .http 200 "" d)).result = .ok d 3 := by
  refine ⟨?_, ?_, ?_⟩ <;> simp [_call_gateway_with_retry, callLoop, List.range']

/-- C3: an install-step gateway call that fails with an error message
containing "already installed" yields a successful install step (for any
context), and in the full workflow — given a successful package step — the
approve step is then attempted. -/
theorem c3_already_installed_success (mr : Nat) (cc : Chaincode) (dep : DeploymentRec)
    (ctx : Ctx) (env : GatewayEnv) (e : String)
    (hfail : (_call_gateway_with_retry mr "Install" env.installOracle).result = .err e)
    (hmsg : strContains (pyLower e) "already installed" = true) :
    (_install_chaincode mr cc dep ctx env).success = true ∧
    ((_package_chaincode mr cc env).success = true →
      StepName.approve ∈
        (execute_deployment_workflow mr (some cc) dep env).steps.map Prod.fst) := by
  have hstep : ∀ ctx' : Ctx, (_install_chaincode mr cc dep ctx' env).success = true := by
    intro ctx'
    simp [_install_chaincode, hfail, hmsg]
  refine ⟨hstep ctx, ?_⟩
  intro hpkg
  simp only [execute_deployment_workflow]
  rw [if_neg (by simp [hpkg]), if_neg (by simp [hstep])]
  split
  · simp
  · split
    · simp
    · simp

/-- C3 witness: the gateway answers the install post with HTTP 400
"already installed" while every other route succeeds. -/
theorem c3_already_installed_success_witness :
    (_install_chaincode 3 ccEx depEx {} envInstall400AI).success = true ∧
    StepName.approve ∈
      (execute_deployment_workflow 3 (some ccEx) depEx envInstall400AI).steps.map Prod.fst := by
  have h := c3_already_installed_success 3 ccEx depEx {} envInstall400AI
    "Install failed: already installed" (by decide) (by decide)
  exact ⟨h.1, h.2 (by decide)⟩

/-- C1: the workflow attempts its steps strictly in the order package,
install, approve, commit (the attempted steps are always an initial segment
of that order); every attempted step except possibly the last returned
success, so a step runs only if all earlier steps succeeded and the first
failure aborts the remaining steps; and the workflow reports success
exactly when all four steps were attempted and succeeded. -/
theorem c1_step_order (mr : Nat) (chaincode? : Option Chaincode) (dep : DeploymentRec)
    (env : GatewayEnv) :
    ((execute_deployment_workflow mr chaincode? dep env).steps.map Prod.fst = [] ∨
     (execute_deployment_workflow mr chaincode? dep env).steps.map Prod.fst =
       [StepName.package] ∨
     (execute_deployment_workflow mr chaincode? dep env).steps.map Prod.fst =
       [StepName.package, StepName.install] ∨
     (execute_deployment_workflow mr chaincode? dep env).steps.map Prod.fst =
       [StepName.package, StepName.install, StepName.approve] ∨
     (execute_deployment_workflow mr chaincode? dep env).steps.map Prod.fst =
       [StepName.package, StepName.install, StepName.approve, StepName.commit]) ∧
    (∀ p ∈ (execute_deployment_workflow mr chaincode? dep env).steps.dropLast,
      p.2.success = true) ∧
    ((execute_deployment_workflow mr chaincode? dep env).success = true ↔
      (execute_deployment_workflow mr chaincode? dep env).steps.map Prod.fst =
        [StepName.package, StepName.install, StepName.approve, StepName.commit] ∧
      ∀ p ∈ (execute_deployment_workflow mr chaincode? dep env).steps,
        p.2.success = true) := by
  cases chaincode? with
  | none => simp [execute_deployment_workflow]
  | some c =>
    simp only [execute_deployment_workflow]
    split
    · next hp => simp_all [List.dropLast]
    · next hp =>
      split
      · next hi => simp_all [List.dropLast]
      · next hi =>
        split
        · next ha => simp_all [List.dropLast]
        · next ha =>
          split
          · next hc => simp_all [List.dropLast]
          · next hc => simp_all [List.dropLast]

/-- C1 witness: with every gateway route succeeding, all four steps run in
order and the workflow succeeds. -/
theorem c1_step_order_witness :
    (execute_deployment_workflow 3 (some ccEx) depEx envAllOk).success = true ∧
    (execute_deployment_workflow 3 (some ccEx) depEx envAllOk).steps.map Prod.fst =
      [StepName.package, StepName.install, StepName.approve, StepName.commit] := by
  have h := c1_step_order 3 (some ccEx) depEx envAllOk
  have hs : (execute_deployment_workflow 3 (some ccEx) depEx envAllOk).success = true := by
    decide
  exact ⟨hs, ((h.2.2).mp hs).1⟩

/-- C9 counterexample: a record that reached `failed` at time 5 (so its
`completion_date` is 5) has its `completion_date` overwritten to 9 by a
second terminal status update at time 9 — the completion timestamp is not
final under further status-update calls. -/
theorem c9_counterexample :
    (update_deployment_status depEx "failed" (some "boom") none 5).completion_date =
      some 5 ∧
    (update_deployment_status
      (update_deployment_status depEx "failed" (some "boom") none 5)
      "failed" (some "boom") none 9).completion_date = some 9 ∧
    (9 : Nat) ≠ 5 := by
  exact ⟨by decide, by decide, by decide⟩

/-- C9 (amended): a status update to `success`, `failed` or `rolled_back`
stamps `completion_date` with the current time (overwriting any earlier
value), a status update to any other status leaves `completion_date`
unchanged, and a set `completion_date` is never cleared back to `none`. -/
theorem c9_completion_date_amended (d : DeploymentRec) (status : String)
    (em lg : Option String) (now : Nat) :
    ((status = "success" ∨ status = "failed" ∨ status = "rolled_back") →
      (update_deployment_status d status em lg now).completion_date = some now) ∧
    (¬(status = "success" ∨ status = "failed" ∨ status = "rolled_back") →
      (update_deployment_status d status em lg now).completion_date =
        d.completion_date) ∧
    (∀ t, d.completion_date = some t →
      ∃ t', (update_deployment_status d status em lg now).completion_date = some t') := by
  have hbase : (update_deployment_status d status em lg now).completion_date =
      (if status = "success" ∨ status = "failed" ∨ status = "rolled_back" then some now
       else d.completion_date) := by
    simp only [update_deployment_status]
    split <;> split <;> split <;> split <;> simp_all
  refine ⟨?_, ?_, ?_⟩
  · intro h
    rw [hbase, if_pos h]
  · intro h
    rw [hbase, if_neg h]
  · intro t ht
    rw [hbase]
    split
    · exact ⟨now, rfl⟩
    · exact ⟨t, ht⟩

/-- C9 witness: the amended theorem applied to a terminal update at time 7
of a record whose completion date was 5. -/
theorem c9_completion_date_amended_witness :
    (update_deployment_status
      (update_deployment_status depEx "failed" (some "boom") none 5)
      "failed" (some "boom") none 7).completion_date = some 7 := by
  have h := c9_completion_date_amended
    (update_deployment_status depEx "failed" (some "boom") none 5)
    "failed" (some "boom") none 7
  exact h.1 (Or.inr (Or.inl rfl))

/-- C8 counterexample: `query_chaincode` on a chaincode whose status is
`approved` (not `active`) still posts to the gateway and returns the
gateway's result instead of failing with a precondition error. -/
theorem c8_counterexample :
    ccEx.status ≠ "active" ∧
    (query_chaincode (some ccEx) gwOk).gatewayCalled = true ∧
    (query_chaincode (some ccEx) gwOk).result = .returned true none := by
  exact ⟨by decide, rfl, rfl⟩

/-- C8 (amended): `invoke_chaincode` raises a precondition error without
calling the gateway whenever the chaincode is not `active`; `query_chaincode`
checks only existence and posts to the gateway regardless of the chaincode's
status; both raise without calling the gateway when the chaincode does not
exist. -/
theorem c8_active_check_amended (c : Chaincode) (resp : GwOutcome) :
    (c.status ≠ "active" →
      invoke_chaincode (some c) resp =
        { gatewayCalled := false, result := .raised "Chaincode must be active to invoke" }) ∧
    (query_chaincode (some c) resp).gatewayCalled = true ∧
    invoke_chaincode none resp =
      { gatewayCalled := false, result := .raised "Chaincode not found" } ∧
    query_chaincode none resp =
      { gatewayCalled := false, result := .raised "Chaincode not found" } := by
  refine ⟨?_, ?_, rfl, rfl⟩
  · intro h
    simp [invoke_chaincode, h]
  · cases resp with
    | http status body data => by_cases hs : status = 200 <;> simp [query_chaincode, hs]
    | netExc msg => rfl
    | exc msg => rfl

/-- C8 witness: invoking an `approved` (not yet `active`) chaincode raises
the precondition error without any gateway call. -/
theorem c8_active_check_amended_witness :
    invoke_chaincode (some ccEx) gwOk =
      { gatewayCalled := false, result := .raised "Chaincode must be active to invoke" } := by
  exact (c8_active_check_amended ccEx gwOk).1 (by decide)

/-- C6: the deploy-creation path rejects every request whose chaincode is
missing, whose chaincode is not in status `approved`, or whose target-peer
list is empty (the schema validator runs first); and whenever it rejects a
request, the deployment store is left unchanged — no record is persisted. -/
theorem c6_create_preconditions (store : List DeploymentRec) (chaincode? : Option Chaincode)
    (cid : Nat) (ch : String) (peers : List String) (seq : Int) :
    ((chaincode? = none ∨ (∀ c, chaincode? = some c → c.status ≠ "approved") ∨ peers = []) →
      ∃ e, (deploy_chaincode_route store chaincode? cid ch peers seq).2 = .error e) ∧
    (∀ e, (deploy_chaincode_route store chaincode? cid ch peers seq).2 = .error e →
      (deploy_chaincode_route store chaincode? cid ch peers seq).1 = store) := by
  constructor
  · intro h
    by_cases hp : peers = []
    · exact ⟨"Target peers cannot be empty",
        by simp [deploy_chaincode_route, validate_target_peers, hp]⟩
    · cases hcc : chaincode? with
      | none => exact ⟨"Chaincode not found",
          by simp [deploy_chaincode_route, validate_target_peers, hp, create_deployment]⟩
      | some c =>
        rcases h with h | h | h
        · rw [hcc] at h
          exact absurd h (by simp)
        · have hst : c.status ≠ "approved" := h c hcc
          exact ⟨"Chaincode must be approved before deployment",
            by simp [deploy_chaincode_route, validate_target_peers, hp, create_deployment, hst]⟩
        · exact absurd h hp
  · intro e he
    by_cases hp : peers = []
    · simp [deploy_chaincode_route, validate_target_peers, hp]
    · cases chaincode? with
      | none => simp [deploy_chaincode_route, validate_target_peers, hp, create_deployment]
      | some c =>
        by_cases hst : c.status = "approved"
        · exfalso
          simp [deploy_chaincode_route, validate_target_peers, hp, create_deployment, hst] at he
        · simp [deploy_chaincode_route, validate_target_peers, hp, create_deployment, hst]

/-- C6 witness: scenario D — creating a deployment for a chaincode still in
status `uploaded` is rejected and persists nothing. -/
theorem c6_create_preconditions_witness :
    (∃ e, (deploy_chaincode_route [] (some ccUploaded) 1 "ch1" ["peer0:7051"] 1).2 =
      .error e) ∧
    (deploy_chaincode_route [] (some ccUploaded) 1 "ch1" ["peer0:7051"] 1).1 = [] := by
  have h := c6_create_preconditions [] (some ccUploaded) 1 "ch1" ["peer0:7051"] 1
  have h1 := h.1 (Or.inr (Or.inl (by intro c hc; cases hc; decide)))
  obtain ⟨e, he⟩ := h1
  exact ⟨⟨e, he⟩, h.2 e he⟩

/-- A string with a non-empty left factor is non-empty. -/
theorem append_ne_empty_left (a b : String) (ha : a ≠ "") : a ++ b ≠ "" := by
  intro h
  apply ha
  have hd := congrArg String.data h
  rw [String.data_append] at hd
  rcases List.append_eq_nil.mp hd with ⟨h1, _⟩
  cases a
  exact congrArg String.mk h1

/-- A successful workflow run implies the chaincode row was found. -/
theorem wf_success_found (mr : Nat) (chaincode? : Option Chaincode) (dep : DeploymentRec)
    (env : GatewayEnv)
    (h : (execute_deployment_workflow mr chaincode? dep env).success = true) :
    ∃ c, chaincode? = some c := by
  cases chaincode? with
  | none => simp [execute_deployment_workflow] at h
  | some c => exact ⟨c, rfl⟩

/-- A workflow run either succeeds or carries a non-empty error message. -/
theorem wf_error_form (mr : Nat) (chaincode? : Option Chaincode) (dep : DeploymentRec)
    (env : GatewayEnv) :
    (execute_deployment_workflow mr chaincode? dep env).success = true ∨
    ∃ e, (execute_deployment_workflow mr chaincode? dep env).error = some e ∧ e ≠ "" := by
  cases chaincode? with
  | none =>
    exact Or.inr ⟨"Chaincode not found", by simp [execute_deployment_workflow], by decide⟩
  | some c =>
    simp only [execute_deployment_workflow]
    split
    · exact Or.inr ⟨_, rfl, append_ne_empty_left _ _ (by decide)⟩
    · split
      · exact Or.inr ⟨_, rfl, append_ne_empty_left _ _ (by decide)⟩
      · split
        · exact Or.inr ⟨_, rfl, append_ne_empty_left _ _ (by decide)⟩
        · split
          · exact Or.inr ⟨_, rfl, append_ne_empty_left _ _ (by decide)⟩
          · exact Or.inl rfl

/-- Field values after a `success` status update. -/
theorem update_success_fields (d : DeploymentRec) (t : Nat) :
    (update_deployment_status d "success" none none t).deployment_status = "success" ∧
    (update_deployment_status d "success" none none t).error_message = none ∧
    (update_deployment_status d "success" none none t).completion_date = some t := by
  simp [update_deployment_status, pyTruthyStr]

/-- Field values after a `failed` status update with a non-empty message. -/
theorem update_failed_fields (d : DeploymentRec) (e : String) (t : Nat) (he : e ≠ "") :
    (update_deployment_status d "failed" (some e) none t).deployment_status = "failed" ∧
    (update_deployment_status d "failed" (some e) none t).error_message = some e ∧
    (update_deployment_status d "failed" (some e) none t).completion_date = some t := by
  simp [update_deployment_status, pyTruthyStr, he]

/-- C7: every completed `execute_deployment` run ends in exactly one of two
outcomes — record status `success`, with the chaincode flipped to `active`
and no error message, or record status `failed`, with the chaincode row
left exactly as it was and a non-empty error message — and the chaincode
row changes only in runs that end in `success`; `completion_date` is
stamped in both terminal outcomes. -/
theorem c7_terminal_dichotomy (mr : Nat) (st : SysState) (env : GatewayEnv)
    (tStart tEnd : Nat) :
    ((execute_deployment mr st env tStart tEnd).2.success = true →
      (execute_deployment mr st env tStart tEnd).1.dep.deployment_status = "success" ∧
      (execute_deployment mr st env tStart tEnd).1.dep.error_message = none ∧
      (execute_deployment mr st env tStart tEnd).1.dep.completion_date = some tEnd ∧
      ∃ c, st.cc = some c ∧
        (execute_deployment mr st env tStart tEnd).1.cc =
          some { c with status := "active" }) ∧
    ((execute_deployment mr st env tStart tEnd).2.success = false →
      (execute_deployment mr st env tStart tEnd).1.dep.deployment_status = "failed" ∧
      (execute_deployment mr st env tStart tEnd).1.cc = st.cc ∧
      (execute_deployment mr st env tStart tEnd).1.dep.completion_date = some tEnd ∧
      ∃ e, (execute_deployment mr st env tStart tEnd).1.dep.error_message = some e ∧
        e ≠ "") ∧
    ((execute_deployment mr st env tStart tEnd).1.cc ≠ st.cc →
      (execute_deployment mr st env tStart tEnd).2.success = true) := by
  simp only [execute_deployment]
  split
  · next hres =>
    obtain ⟨c, hc⟩ := wf_success_found mr _ _ env hres
    refine ⟨fun _ => ?_, fun hfalse => ?_, fun _ => by simp⟩
    · refine ⟨?_, ?_, ?_, c, hc, ?_⟩ <;> simp [update_success_fields, hc]
    · simp at hfalse
  · next hres =>
    rw [Bool.not_eq_true] at hres
    rcases wf_error_form mr _ _ env with hsucc | ⟨e, he, hne⟩
    · rw [hres] at hsucc
      cases hsucc
    · refine ⟨fun htrue => ?_, fun _ => ?_, fun hne' => ?_⟩
      · simp at htrue
      · refine ⟨?_, by simp, ?_, e, ?_, hne⟩ <;>
          simp [he, update_failed_fields _ e tEnd hne]
      · exfalso
        apply hne'
        simp

/-- C7 witness: with every gateway route succeeding, the record ends in
`success` and the chaincode flips to `active`. -/
theorem c7_terminal_dichotomy_witness :
    (execute_deployment 3 { dep := depEx, cc := some ccEx } envAllOk 10 20).1.dep.deployment_status =
      "success" ∧
    (execute_deployment 3 { dep := depEx, cc := some ccEx } envAllOk 10 20).1.cc =
      some { ccEx with status := "active" } := by
  have h := c7_terminal_dichotomy 3 { dep := depEx, cc := some ccEx } envAllOk 10 20
  have hs : (execute_deployment 3 { dep := depEx, cc := some ccEx } envAllOk 10 20).2.success =
      true := by decide
  obtain ⟨h1, _, _, c, hc, hcc⟩ := h.1 hs
  obtain rfl : ccEx = c := by simpa using hc
  exact ⟨h1, hcc⟩

/-- C5 counterexample: when the approve call returns HTTP 400
"invalid sequence", the persisted error message is
"Deployment failed at step 'approve': Approve failed: invalid sequence"
(the retry helper prefixes the step name and "failed: " to the response
body), not the claimed "Deployment failed at step 'approve': invalid
sequence". -/
theorem c5_counterexample :
    (execute_deployment 3 { dep := depEx, cc := some ccEx } envApprove400 10 20).1.dep.error_message =
      some "Deployment failed at step 'approve': Approve failed: invalid sequence" ∧
    some "Deployment failed at step 'approve': Approve failed: invalid sequence" ≠
      some "Deployment failed at step 'approve': invalid sequence" := by
  exact ⟨by decide, by decide⟩

/-- C5 (amended): when the package and install calls succeed and the approve
call answers HTTP 400 "invalid sequence" on its first attempt, the approve
call is attempted exactly once (no retry on 4xx), the record ends in status
`failed` with `completion_date` stamped, its `error_message` equals
"Deployment failed at step 'approve': Approve failed: invalid sequence",
and the chaincode row is unchanged (its status stays as it was, e.g.
`approved`). -/
theorem c5_approve_4xx_amended (cc : Chaincode) (dep : DeploymentRec) (env : GatewayEnv)
    (tStart tEnd : Nat) (d : GwData)
    (hpkg : ∃ pd a, (_call_gateway_with_retry 3 "Package" env.packageOracle).result =
      .ok pd a)
    (hins : ∃ pd a, (_call_gateway_with_retry 3 "Install" env.installOracle).result =
      .ok pd a)
    (happ : env.approveOracle 1 = .http 400 "invalid sequence" d) :
    (_call_gateway_with_retry 3 "Approve" env.approveOracle).attempts = 1 ∧
    (execute_deployment 3 { dep := dep, cc := some cc } env tStart tEnd).1.dep.deployment_status =
      "failed" ∧
    (execute_deployment 3 { dep := dep, cc := some cc } env tStart tEnd).1.dep.error_message =
      some "Deployment failed at step 'approve': Approve failed: invalid sequence" ∧
    (execute_deployment 3 { dep := dep, cc := some cc } env tStart tEnd).1.dep.completion_date =
      some tEnd ∧
    (execute_deployment 3 { dep := dep, cc := some cc } env tStart tEnd).1.cc = some cc := by
  obtain ⟨pd, pa, hp⟩ := hpkg
  obtain ⟨idd, ia, hi⟩ := hins
  have happrove : _call_gateway_with_retry 3 "Approve" env.approveOracle =
      { result := .err "Approve failed: invalid sequence", attempts := 1, sleeps := [] } := by
    simp only [_call_gateway_with_retry, List.range', callLoop, happ]
    rw [if_neg (by decide), if_pos (by decide)]
    rfl
  have hwf : ∀ dep' : DeploymentRec,
      (execute_deployment_workflow 3 (some cc) dep' env).success = false ∧
      (execute_deployment_workflow 3 (some cc) dep' env).error =
        some "Deployment failed at step 'approve': Approve failed: invalid sequence" := by
    intro dep'
    simp [execute_deployment_workflow, _package_chaincode, _install_chaincode,
      _approve_chaincode, hp, hi, happrove, optStr]
  have hwf1 := (hwf (update_deployment_status dep "deploying" none none tStart)).1
  have hwf2 := (hwf (update_deployment_status dep "deploying" none none tStart)).2
  refine ⟨by rw [happrove], ?_, ?_, ?_, ?_⟩ <;>
    simp [execute_deployment, hwf1, hwf2,
      update_failed_fields (update_deployment_status dep "deploying" none none tStart)
        "Deployment failed at step 'approve': Approve failed: invalid sequence" tEnd
        (by decide)]

/-- C5 witness: the amended theorem applied to the concrete approve-400
environment. -/
theorem c5_approve_4xx_amended_witness :
    (_call_gateway_with_retry 3 "Approve" envApprove400.approveOracle).attempts = 1 ∧
    (execute_deployment 3 { dep := depEx, cc := some ccEx } envApprove400 10 20).1.dep.deployment_status =
      "failed" ∧
    (execute_deployment 3 { dep := depEx, cc := some ccEx } envApprove400 10 20).1.cc =
      some ccEx := by
  have h := c5_approve_4xx_amended ccEx depEx envApprove400 10 20 {}
    ⟨{ packageId := some "pkg1", packagePath := some "/tmp/p.tar.gz" }, 1, by decide⟩
    ⟨{ packageId := some "pkg1", packagePath := some "/tmp/p.tar.gz" }, 1, by decide⟩
    (by decide)
  exact ⟨h.1, h.2.1, h.2.2.2.2⟩

end Block
